import Mathlib

/-! Client-side telemetry of the CHEAT LMS (`app/static/js/telemetry.js`)

A shallow embedding of the `Telemetry` singleton: the event buffer
(`interactions`), the two flush paths with their `sessionStorage` backup, the
failure handler of `flush`, the one-shot first-interaction tracking, the
per-question timing map and the textarea typing-burst detector.

Modelling conventions.

* Instants returned by `Date.now()` are integers (milliseconds); every handler
  receives the instant `now` of its run, and all reads of the clock inside one
  synchronous handler run return that same instant.
* Lengths and clock readings are integers below `2 ^ 53` in absolute value, as
  the language guarantees, so reading and subtracting them is exact. The
  quotient and the product of `charsPerSecond` are computed in binary64: each
  is rounded to 53 significant bits, to nearest, ties to even (`Double`); the
  exponent range of binary64 is not reached by such quotients and products.
* Values read from the DOM (pointer position, element names, lengths of text)
  are parameters of the handler that reads them.
* `sessionStorage` is the item stored under `telemetry_events`; a write to it
  succeeds, and an event is identified with its JSON serialisation.
* A pending `fetch` is an entry of `pending`; it is settled later by
  `fetchFailed` (the promise rejects, the `catch` handler runs) or
  `fetchSucceeded`.
* `recorded` is a ghost component, absent from the source: the list of all
  events ever built by `logEvent`, in the order of the calls.
-/

namespace CheatTelemetry

/-! ## Data model -/

/-- A finite binary64 number in canonical form: its value is
`mantissa * 2 ^ exponent`, negated when `negative`; the mantissa is odd, or it
is zero with exponent zero. -/
structure Double where
  negative : Bool
  mantissa : Nat
  exponent : Int
  deriving DecidableEq

/-- Helper of `floorLog2`: halve `n` until it is below 2, at most `fuel` times. -/
def floorLog2Aux : Nat → Nat → Nat
  | 0, _ => 0
  | fuel + 1, n => if n < 2 then 0 else floorLog2Aux fuel (n / 2) + 1

/-- The position of the highest set bit of `n`, and `0` for `n = 0`. -/
def floorLog2 (n : Nat) : Nat :=
  floorLog2Aux n n

/-- The positive rational `num / den` rounded to 53 significant bits, to
nearest, ties to even, as canonical mantissa and exponent. The scaled quotient
`q0` has 53 or 54 bits; the exponent is raised by one in the second case. -/
def roundQuotient (num den : Nat) : Nat × Int :=
  if num = 0 ∨ den = 0 then (0, 0)
  else
    let e0 : Int := (floorLog2 num : Int) - (floorLog2 den : Int) - 53
    let q0 := (num * 2 ^ (-e0).toNat) / (den * 2 ^ e0.toNat)
    let e : Int := if q0 ≥ 2 ^ 53 then e0 + 1 else e0
    let n1 := num * 2 ^ (-e).toNat
    let d1 := den * 2 ^ e.toNat
    let q := n1 / d1
    let r := n1 % d1
    let m := if 2 * r > d1 ∨ (2 * r = d1 ∧ q % 2 = 1) then q + 1 else q
    let g := Nat.gcd m (2 ^ 53)
    (m / g, e + (floorLog2 g : Int))

/-- The number value of an integer. -/
def Double.ofInt (n : Int) : Double :=
  { negative := decide (n < 0)
    mantissa := (roundQuotient n.natAbs 1).1
    exponent := (roundQuotient n.natAbs 1).2 }

/-- The operator `/` on two numbers, the divisor not zero. -/
def Double.div (x y : Double) : Double :=
  let d := x.exponent - y.exponent
  let r := roundQuotient (x.mantissa * 2 ^ d.toNat) (y.mantissa * 2 ^ (-d).toNat)
  { negative := xor x.negative y.negative, mantissa := r.1, exponent := r.2 }

/-- The operator `*` on two numbers. -/
def Double.mul (x y : Double) : Double :=
  let s := x.exponent + y.exponent
  let r := roundQuotient (x.mantissa * y.mantissa * 2 ^ s.toNat) (2 ^ (-s).toNat)
  { negative := xor x.negative y.negative, mantissa := r.1, exponent := r.2 }

/-- A field value of an event's `data` object. -/
inductive Value where
  | null
  | num (n : Int)
  | double (d : Double)
  | str (s : String)
  | bool (b : Bool)
  deriving DecidableEq

/-- The object literal built by `logEvent`. -/
structure Event where
  eventType : String
  sessionId : Option String
  timestamp : Int
  data : List (String × Value)
  deriving DecidableEq

/-- A value of `questionTimings`: the object literal with `focusedAt` and `answeredAt`. -/
structure QuestionTiming where
  focusedAt : Int
  answeredAt : Option Int
  deriving DecidableEq

/-- The item of `sessionStorage` under the key `telemetry_events`: missing,
a serialised array of events, or a string on which the parse-and-concat of the
backup block throws. -/
inductive Stored where
  | absent
  | events (l : List Event)
  | corrupt
  deriving DecidableEq

/-- The `Telemetry` object together with the parts of the host page that its
methods read and write. -/
structure Telemetry where
  sessionId : Option String
  pageLoadTime : Int
  interactions : List Event
  firstInteractionTracked : Bool
  lastClickTime : Option Int
  lastScrollTime : Option Int
  questionTimings : List (String × QuestionTiming)
  /-- Result of `getAssignmentId()` for the current page. -/
  assignmentId : Option Int
  /-- Whether the `once` listener for `click` is still attached. -/
  onceClick : Bool
  /-- Whether the `once` listener for `keydown` is still attached. -/
  onceKeydown : Bool
  /-- Whether the `once` listener for `scroll` is still attached. -/
  onceScroll : Bool
  /-- The closure variable `scrollTimeout` is set (a debounce timer is armed). -/
  scrollTimeout : Bool
  storage : Stored
  /-- Batches handed to `fetch` whose promise is not settled yet. -/
  pending : List (List Event)
  /-- Batches handed to `navigator.sendBeacon`. -/
  beacons : List (List Event)
  /-- Ghost: every event built by `logEvent`, in call order. -/
  recorded : List Event
  deriving DecidableEq

/-- Closure variables of one textarea in `setupEventListeners`. -/
structure TextareaState where
  focusTime : Option Int
  lastInputTime : Option Int
  charCount : Int
  inputTimes : List (Int × Int)
  deriving DecidableEq

/-- Values read from the DOM by the click listener. -/
structure ClickInfo where
  x : Int
  y : Int
  pageX : Int
  pageY : Int
  target : String
  targetId : String
  targetClass : String
  deriving DecidableEq

/-- Values read from the page by `trackPageLoad`. -/
structure PageInfo where
  url : String
  path : String
  referrer : String
  userAgent : String
  screenWidth : Int
  screenHeight : Int
  viewportWidth : Int
  viewportHeight : Int
  isoTime : String
  deriving DecidableEq

/-! ## JavaScript helpers -/

/-- Truthiness of a nullable number: `null` and `0` are falsy. -/
def truthy : Option Int → Bool
  | none => false
  | some t => t != 0

/-- A nullable number as a field value. -/
def optNum : Option Int → Value
  | none => Value.null
  | some n => Value.num n

/-- The expression `s || null` for a string `s`. -/
def strOrNull (s : String) : Value :=
  if s = "" then Value.null else Value.str s

/-- The call `xs.slice(-n)`: the last `n` elements, all of them when there are fewer. -/
def sliceLast {α : Type} (n : Nat) (xs : List α) : List α :=
  xs.drop (xs.length - n)

/-- Property read `obj[key]` on `questionTimings`. -/
def getTiming (m : List (String × QuestionTiming)) (key : String) : Option QuestionTiming :=
  match m with
  | [] => none
  | (k, v) :: rest => if k = key then some v else getTiming rest key

/-- Property write `obj[key] = v`: replaces the value of an existing key, adds a new key otherwise. -/
def setTiming (m : List (String × QuestionTiming)) (key : String) (v : QuestionTiming) :
    List (String × QuestionTiming) :=
  match m with
  | [] => [(key, v)]
  | (k, w) :: rest => if k = key then (k, v) :: rest else (k, w) :: setTiming rest key v

/-! ## Event recorder and delivery -/

/-- The method `logEvent`. -/
def logEvent (s : Telemetry) (eventType : String) (data : List (String × Value)) (now : Int) :
    Telemetry :=
  let event : Event :=
    { eventType := eventType, sessionId := s.sessionId, timestamp := now, data := data }
  { s with interactions := s.interactions ++ [event], recorded := s.recorded ++ [event] }

/-- The backup block shared by `flush` and `flushWithBeacon`: read the stored
array (`[]` when the key is missing), append the batch, store the last 1000. A
throw inside the block is caught and leaves the item as it was. -/
def backup (st : Stored) (events : List Event) : Stored :=
  match st with
  | Stored.absent => Stored.events (sliceLast 1000 ([] ++ events))
  | Stored.events existing => Stored.events (sliceLast 1000 (existing ++ events))
  | Stored.corrupt => Stored.corrupt

/-- The method `flush`, up to its return: the swap, the `fetch` call and the backup. -/
def flush (s : Telemetry) : Telemetry :=
  if s.interactions.length = 0 then s
  else
    let events := s.interactions
    { s with
      interactions := []
      pending := s.pending ++ [events]
      storage := backup s.storage events }

/-- The `catch` handler of the `fetch` issued by `flush`, run for the pending batch at index `i`. -/
def fetchFailed (s : Telemetry) (i : Nat) : Telemetry :=
  match s.pending[i]? with
  | none => s
  | some events =>
    { s with
      pending := s.pending.eraseIdx i
      interactions := sliceLast 1000 (events ++ s.interactions) }

/-- The promise of the pending batch at index `i` resolves: no handler is attached. -/
def fetchSucceeded (s : Telemetry) (i : Nat) : Telemetry :=
  { s with pending := s.pending.eraseIdx i }

/-- The method `flushWithBeacon`. -/
def flushWithBeacon (s : Telemetry) : Telemetry :=
  if s.interactions.length = 0 then s
  else
    let events := s.interactions
    { s with
      interactions := []
      beacons := s.beacons ++ [events]
      storage := backup s.storage events }

/-! ## Capture sources -/

/-- The field `assignmentId: self.getAssignmentId()`. -/
def assignmentField (s : Telemetry) : String × Value :=
  ("assignmentId", optNum s.assignmentId)

/-- The method `trackFirstInteraction`. -/
def trackFirstInteraction (s : Telemetry) (interactionType : String) (now : Int) : Telemetry :=
  if s.firstInteractionTracked then s
  else
    let s1 := { s with firstInteractionTracked := true }
    let timeSinceLoad := now - s1.pageLoadTime
    logEvent s1 "first_interaction"
      [("interactionType", Value.str interactionType),
       ("timeSinceLoadMs", Value.num timeSinceLoad),
       assignmentField s1] now

/-- The closure `firstInteractionHandler`, called with an event of type `ty`. -/
def firstInteractionHandler (s : Telemetry) (ty : String) (now : Int) : Telemetry :=
  trackFirstInteraction s ty now

/-- The second `click` listener of the document: position, target and timing of every click. -/
def clickListener (s : Telemetry) (c : ClickInfo) (now : Int) : Telemetry :=
  let timeSincePrevClick : Option Int :=
    if truthy s.lastClickTime then s.lastClickTime.map (fun t => now - t) else none
  let s1 := { s with lastClickTime := some now }
  logEvent s1 "click"
    [("x", Value.num c.x), ("y", Value.num c.y),
     ("pageX", Value.num c.pageX), ("pageY", Value.num c.pageY),
     ("target", Value.str c.target),
     ("targetId", strOrNull c.targetId),
     ("targetClass", strOrNull c.targetClass),
     ("timeSincePrevClickMs", optNum timeSincePrevClick),
     ("timeOnPage", Value.num (now - s1.pageLoadTime)),
     assignmentField s1] now

/-- A `click` event reaches the document: the `once` listener, if still
attached, is detached and run, then the click listener runs. -/
def onClick (s : Telemetry) (c : ClickInfo) (now : Int) : Telemetry :=
  let s1 :=
    if s.onceClick then firstInteractionHandler { s with onceClick := false } "click" now else s
  clickListener s1 c now

/-- A `keydown` event reaches the document: only the `once` listener listens for it. -/
def onKeydown (s : Telemetry) (now : Int) : Telemetry :=
  if s.onceKeydown then firstInteractionHandler { s with onceKeydown := false } "keydown" now
  else s

/-- The debouncing `scroll` listener: arms the timer unless one is armed. -/
def scrollListener (s : Telemetry) : Telemetry :=
  if s.scrollTimeout then s else { s with scrollTimeout := true }

/-- A `scroll` event reaches the document: the `once` listener, if still
attached, is detached and run, then the debouncing listener runs. -/
def onScroll (s : Telemetry) (now : Int) : Telemetry :=
  let s1 :=
    if s.onceScroll then firstInteractionHandler { s with onceScroll := false } "scroll" now else s
  scrollListener s1

/-- The callback of the debounce timer; it runs only when a timer is armed. -/
def scrollTimer (s : Telemetry) (scrollY scrollX maxScrollY : Int) (now : Int) : Telemetry :=
  if s.scrollTimeout then
    let timeSincePrevScroll : Option Int :=
      if truthy s.lastScrollTime then s.lastScrollTime.map (fun t => now - t) else none
    let s1 := { s with lastScrollTime := some now }
    let s2 := logEvent s1 "scroll"
      [("scrollY", Value.num scrollY), ("scrollX", Value.num scrollX),
       ("maxScrollY", Value.num maxScrollY),
       ("timeSincePrevScrollMs", optNum timeSincePrevScroll),
       ("timeOnPage", Value.num (now - s1.pageLoadTime)),
       assignmentField s1] now
    { s2 with scrollTimeout := false }
  else s

/-- The `IntersectionObserver` callback of one question, for one entry. -/
def onIntersect (s : Telemetry) (questionId : String) (index : Nat) (isIntersecting : Bool)
    (now : Int) : Telemetry :=
  if isIntersecting && (getTiming s.questionTimings questionId).isNone then
    let s1 := { s with
      questionTimings :=
        setTiming s.questionTimings questionId { focusedAt := now, answeredAt := none } }
    logEvent s1 "question_focus"
      [("questionId", Value.str questionId),
       ("questionIndex", Value.num index),
       ("timeOnPage", Value.num (now - s1.pageLoadTime)),
       assignmentField s1] now
  else s

/-- The `change` listener of a radio input of one question. The record is
created when missing, its `answeredAt` is overwritten, and `focusedAt` is read
back from it. -/
def onAnswerChange (s : Telemetry) (questionId : String) (index : Nat) (selectedValue : String)
    (now : Int) : Telemetry :=
  let ensured : QuestionTiming :=
    match getTiming s.questionTimings questionId with
    | some r => r
    | none => { focusedAt := now, answeredAt := none }
  let updated : QuestionTiming := { ensured with answeredAt := some now }
  let s1 := { s with questionTimings := setTiming s.questionTimings questionId updated }
  let focusedAt := updated.focusedAt
  let timeToAnswer := now - focusedAt
  logEvent s1 "question_answer"
    [("questionId", Value.str questionId),
     ("questionIndex", Value.num index),
     ("selectedValue", Value.str selectedValue),
     ("timeToAnswerMs", Value.num timeToAnswer),
     ("timeOnPage", Value.num (now - s1.pageLoadTime)),
     assignmentField s1] now

/-- The closure variables of a textarea as declared. -/
def TextareaState.initial : TextareaState :=
  { focusTime := none, lastInputTime := none, charCount := 0, inputTimes := [] }

/-- The `focus` listener of a textarea whose value has `valueLength` characters. -/
def onTextareaFocus (s : Telemetry) (ta : TextareaState) (name : String) (valueLength : Nat)
    (now : Int) : Telemetry × TextareaState :=
  let ta1 := { ta with focusTime := some now, charCount := valueLength, inputTimes := [] }
  (logEvent s "textarea_focus"
    [("textareaName", Value.str name),
     ("timeOnPage", Value.num (now - s.pageLoadTime))] now, ta1)

/-- The expression for `charsPerSecond`. -/
def charsPerSecond (charsAdded : Int) (timeSinceLastInput : Option Int) : Value :=
  if truthy timeSinceLastInput then
    match timeSinceLastInput with
    | some t =>
      Value.double
        (Double.mul (Double.div (Double.ofInt charsAdded) (Double.ofInt t)) (Double.ofInt 1000))
    | none => Value.null
  else Value.null

/-- The `input` listener of a textarea whose value now has `newLength` characters. -/
def onTextareaInput (s : Telemetry) (ta : TextareaState) (name : String) (newLength : Nat)
    (now : Int) : Telemetry × TextareaState :=
  let charsAdded : Int := (newLength : Int) - ta.charCount
  let s1 :=
    if charsAdded > 5 then
      let timeSinceLastInput : Option Int :=
        if truthy ta.lastInputTime then ta.lastInputTime.map (fun t => now - t) else none
      logEvent s "typing_burst"
        [("textareaName", Value.str name),
         ("charsAdded", Value.num charsAdded),
         ("timeSinceLastInputMs", optNum timeSinceLastInput),
         ("charsPerSecond", charsPerSecond charsAdded timeSinceLastInput),
         ("likelyPaste", Value.bool (decide (charsAdded > 20))),
         ("timeOnPage", Value.num (now - s.pageLoadTime)),
         assignmentField s] now
    else s
  (s1, { ta with
    inputTimes := ta.inputTimes ++ [(now, charsAdded)]
    charCount := newLength
    lastInputTime := some now })

/-! ## Lifecycle -/

/-- The object literal `Telemetry` as evaluated at script load, on a page with
the given assignment id and stored backup item. -/
def fresh (pageLoadTime : Int) (assignmentId : Option Int) (storage : Stored) : Telemetry :=
  { sessionId := none
    pageLoadTime := pageLoadTime
    interactions := []
    firstInteractionTracked := false
    lastClickTime := none
    lastScrollTime := none
    questionTimings := []
    assignmentId := assignmentId
    onceClick := false
    onceKeydown := false
    onceScroll := false
    scrollTimeout := false
    storage := storage
    pending := []
    beacons := []
    recorded := [] }

/-- The method `trackPageLoad`. -/
def trackPageLoad (s : Telemetry) (p : PageInfo) (now : Int) : Telemetry :=
  logEvent s "page_load"
    [("url", Value.str p.url), ("path", Value.str p.path),
     ("referrer", Value.str p.referrer), ("userAgent", Value.str p.userAgent),
     ("screenWidth", Value.num p.screenWidth), ("screenHeight", Value.num p.screenHeight),
     ("viewportWidth", Value.num p.viewportWidth), ("viewportHeight", Value.num p.viewportHeight),
     ("timestamp", Value.str p.isoTime)] now

/-- The part of `setupEventListeners` that attaches the three `once` listeners. -/
def setupEventListeners (s : Telemetry) : Telemetry :=
  { s with onceClick := true, onceKeydown := true, onceScroll := true }

/-- The method `init`; `sid` is the result of `getOrCreateSessionId()`. -/
def init (s : Telemetry) (sid : String) (p : PageInfo) (now : Int) : Telemetry :=
  let s1 := { s with sessionId := some sid }
  let s2 := trackPageLoad s1 p now
  setupEventListeners s2

/-! ## Signals of the host page -/

/-- What the host page can deliver to the telemetry object. -/
inductive Signal where
  | click (c : ClickInfo) (now : Int)
  | keydown (now : Int)
  | scroll (now : Int)
  | scrollTimer (scrollY scrollX maxScrollY : Int) (now : Int)
  | intersect (questionId : String) (index : Nat) (isIntersecting : Bool) (now : Int)
  | answerChange (questionId : String) (index : Nat) (selectedValue : String) (now : Int)
  | capture (eventType : String) (data : List (String × Value)) (now : Int)
  | flush
  | flushWithBeacon
  | fetchFailed (i : Nat)
  | fetchSucceeded (i : Nat)
  deriving DecidableEq

/-- The handler run for one signal. `capture` stands for a capture source that
only calls `logEvent`; the periodic timer is `flush`. -/
def step (s : Telemetry) : Signal → Telemetry
  | Signal.click c now => onClick s c now
  | Signal.keydown now => onKeydown s now
  | Signal.scroll now => onScroll s now
  | Signal.scrollTimer y x m now => scrollTimer s y x m now
  | Signal.intersect q i b now => onIntersect s q i b now
  | Signal.answerChange q i v now => onAnswerChange s q i v now
  | Signal.capture ty data now => logEvent s ty data now
  | Signal.flush => flush s
  | Signal.flushWithBeacon => flushWithBeacon s
  | Signal.fetchFailed i => fetchFailed s i
  | Signal.fetchSucceeded i => fetchSucceeded s i

/-- The handlers run for a sequence of signals, one after the other. -/
def run (s : Telemetry) (sigs : List Signal) : Telemetry :=
  sigs.foldl step s

/-! ## Vocabulary of the statements -/

/-- Signals of the delivery manager: the two flushes and the settling of a `fetch`. -/
def Signal.isDelivery : Signal → Bool
  | Signal.flush => true
  | Signal.flushWithBeacon => true
  | Signal.fetchFailed _ => true
  | Signal.fetchSucceeded _ => true
  | _ => false

/-- The signal is a bare `logEvent` call with the event type `ty`. -/
def Signal.capturesType (ty : String) : Signal → Bool
  | Signal.capture t _ _ => t == ty
  | _ => false

/-- The `type` of the DOM event behind a click, key-press or scroll signal. -/
def Signal.domType : Signal → Option String
  | Signal.click _ _ => some "click"
  | Signal.keydown _ => some "keydown"
  | Signal.scroll _ => some "scroll"
  | _ => none

/-- The instant carried by a click, key-press or scroll signal. -/
def Signal.instant : Signal → Int
  | Signal.click _ now => now
  | Signal.keydown now => now
  | Signal.scroll now => now
  | _ => 0

/-- The events recorded between the states `s` and `t`, `t` being later. -/
def recordedSince (s t : Telemetry) : List Event :=
  t.recorded.drop s.recorded.length

/-- The array read back from the stored item by the backup block, if the read succeeds. -/
def storedList : Stored → Option (List Event)
  | Stored.absent => some []
  | Stored.events l => some l
  | Stored.corrupt => none

/-- Along the run of `sigs` from `s`, no `flush` of a non-empty buffer starts
while a `fetch` is pending. -/
def singleFlight (s : Telemetry) : List Signal → Bool
  | [] => true
  | sig :: rest =>
    (match sig with
      | Signal.flush => s.pending.isEmpty || s.interactions.isEmpty
      | _ => true) && singleFlight (step s sig) rest

/-- The event is a `question_focus` event of question `q`. -/
def isFocusEventFor (q : String) (e : Event) : Bool :=
  e.eventType == "question_focus" && e.data.lookup "questionId" == some (Value.str q)

/-- The event is a `first_interaction` event. -/
def isFirstInteraction (e : Event) : Bool :=
  e.eventType == "first_interaction"

/-- The event is a `typing_burst` event. -/
def isTypingBurst (e : Event) : Bool :=
  e.eventType == "typing_burst"

/-- A run of `n` visibility signals, the `k`-th at instant `k`. -/
def burst (n : Nat) : List Signal :=
  (List.range n).map (fun k =>
    Signal.capture "visibility_change"
      [("hidden", Value.bool true), ("timeOnPage", Value.num k),
       ("assignmentId", Value.null)] k)

/-- The object as evaluated at instant `0` on a page without assignment, nothing stored. -/
def blank : Telemetry :=
  fresh 0 none Stored.absent

/-- Two flushes in flight: an event is recorded and flushed, a second event is
recorded and flushed while the first fetch is pending, then the first fetch
fails and after it the second. -/
def overlappingFlushes : List Signal :=
  [Signal.capture "visibility_change" [("hidden", Value.bool true)] 1,
   Signal.flush,
   Signal.capture "visibility_change" [("hidden", Value.bool false)] 2,
   Signal.flush,
   Signal.fetchFailed 0,
   Signal.fetchFailed 0]

/-- One flush in flight at a time: record, flush, record, failure, record. -/
def retriedFlush : List Signal :=
  [Signal.capture "visibility_change" [("hidden", Value.bool true)] 1,
   Signal.flush,
   Signal.capture "visibility_change" [("hidden", Value.bool false)] 2,
   Signal.fetchFailed 0,
   Signal.capture "visibility_change" [("hidden", Value.bool true)] 3]

/-- The state invariant behind the order of the buffer: at most one fetch is
pending, the buffer is in recording order, and so is a pending batch followed
by the buffer. -/
def InOrder (s : Telemetry) : Prop :=
  s.pending.length ≤ 1 ∧ s.interactions.Sublist s.recorded ∧
    ∀ b ∈ s.pending, (b ++ s.interactions).Sublist s.recorded

/-- At most one `question_focus` event of question `q` has been recorded, and
none as long as `q` has no timing record. -/
def FocusOnce (q : String) (s : Telemetry) : Prop :=
  (s.recorded.filter (isFocusEventFor q)).length ≤ 1 ∧
    (getTiming s.questionTimings q = none → s.recorded.filter (isFocusEventFor q) = [])

/-- The identifiers that have a timing record. -/
def timingKeys (s : Telemetry) : List String :=
  s.questionTimings.map Prod.fst

/-- A page used in the worked examples. -/
def samplePage : PageInfo :=
  { url := "http://localhost/assignment/3"
    path := "/assignment/3"
    referrer := ""
    userAgent := "agent"
    screenWidth := 1280
    screenHeight := 800
    viewportWidth := 1200
    viewportHeight := 700
    isoTime := "2024-01-01T00:00:00.000Z" }

/-- The object right after `init` has run on the freshly evaluated script. -/
def atLoad (pageLoadTime : Int) (assignmentId : Option Int) (storage : Stored) (sid : String)
    (p : PageInfo) (now : Int) : Telemetry :=
  init (fresh pageLoadTime assignmentId storage) sid p now

/-- The sample page right after `init`. -/
def sampleLoad : Telemetry :=
  atLoad 1000 (some 3) Stored.absent "sess_1000_abc" samplePage 1001

/-- A focus of the textarea followed by one input mutation. -/
def focusThenInput (s : Telemetry) (ta : TextareaState) (name : String) (valueLength : Nat)
    (focusAt : Int) (newLength : Nat) (inputAt : Int) : Telemetry × TextareaState :=
  onTextareaInput (onTextareaFocus s ta name valueLength focusAt).1
    (onTextareaFocus s ta name valueLength focusAt).2 name newLength inputAt

/-- The `first_interaction` event has been recorded once, as `e`, and the flag is set. -/
def FirstOnce (e : Event) (s : Telemetry) : Prop :=
  s.firstInteractionTracked = true ∧ s.recorded.filter isFirstInteraction = [e]

/-- A click in the middle of the sample page. -/
def sampleClick : ClickInfo :=
  { x := 10, y := 20, pageX := 10, pageY := 220, target := "BUTTON", targetId := "",
    targetClass := "btn" }

/-! ## Facts about `slice(-n)` -/

theorem sliceLast_length_le {α : Type} (n : Nat) (xs : List α) :
    (sliceLast n xs).length ≤ n := by
  unfold sliceLast
  rw [List.length_drop]
  omega

theorem sliceLast_eq_self {α : Type} (n : Nat) (xs : List α) (h : xs.length ≤ n) :
    sliceLast n xs = xs := by
  unfold sliceLast
  have : xs.length - n = 0 := by omega
  rw [this, List.drop_zero]

theorem sliceLast_suffix {α : Type} (n : Nat) (xs : List α) :
    sliceLast n xs <:+ xs := by
  unfold sliceLast
  exact List.drop_suffix _ _

theorem sliceLast_sublist {α : Type} (n : Nat) (xs : List α) :
    (sliceLast n xs).Sublist xs :=
  (sliceLast_suffix n xs).sublist

theorem sliceLast_append_right {α : Type} (n : Nat) (xs ys : List α) (h : ys.length ≤ n)
    (hn : n ≤ (xs ++ ys).length) :
    ys <:+ sliceLast n (xs ++ ys) := by
  unfold sliceLast
  rw [List.length_append] at *
  have hk : xs.length + ys.length - n ≤ xs.length := by omega
  rw [List.drop_append_of_le_length hk]
  exact List.suffix_append _ _

/-! ## Facts about the binary64 rounding -/

theorem floorLog2Aux_eq (fuel n : Nat) (h : n ≤ fuel) : floorLog2Aux fuel n = Nat.log2 n := by
  induction fuel generalizing n with
  | zero =>
    have hn : n = 0 := by omega
    subst hn
    rw [Nat.log2]
    simp [floorLog2Aux]
  | succ k ih =>
    rw [Nat.log2]
    by_cases h2 : n < 2
    · have h3 : ¬ n ≥ 2 := by omega
      simp [floorLog2Aux, h2, h3]
    · have h3 : n ≥ 2 := by omega
      have h4 : n / 2 ≤ k := by omega
      simp [floorLog2Aux, h2, h3, ih _ h4]

theorem floorLog2_eq_log2 (n : Nat) : floorLog2 n = Nat.log2 n :=
  floorLog2Aux_eq n n (Nat.le_refl n)

/-- Integers beyond 53 bits are rounded to nearest, ties to even; the sign is
kept apart from the magnitude. -/
theorem ofInt_rounds_ties_to_even :
    Double.ofInt (2 ^ 53 + 1) = ⟨false, 1, 53⟩ ∧
      Double.ofInt (2 ^ 53 + 3) = ⟨false, 2251799813685249, 2⟩ ∧
      Double.ofInt (-1000) = ⟨true, 125, 3⟩ ∧ Double.ofInt 0 = ⟨false, 0, 0⟩ := by
  refine ⟨?_, ?_, ?_, ?_⟩ <;> rfl

/-! ## Facts about `logEvent` and the runs of capture signals -/

theorem run_nil (s : Telemetry) : run s [] = s := rfl

theorem run_cons (s : Telemetry) (sig : Signal) (rest : List Signal) :
    run s (sig :: rest) = run (step s sig) rest := rfl

theorem run_append (s : Telemetry) (xs ys : List Signal) :
    run s (xs ++ ys) = run (run s xs) ys := by
  simp [run, List.foldl_append]

theorem burst_succ (n : Nat) :
    burst (n + 1) = burst n ++
      [Signal.capture "visibility_change"
        [("hidden", Value.bool true), ("timeOnPage", Value.num n),
         ("assignmentId", Value.null)] n] := by
  simp [burst, List.range_succ]

theorem burst_run_interactions (n : Nat) (s : Telemetry) :
    (run s (burst n)).interactions.length = s.interactions.length + n := by
  induction n with
  | zero => simp [burst, run]
  | succ k ih =>
    rw [burst_succ, run_append, run_cons, run_nil]
    simp only [step, logEvent, List.length_append, List.length_cons, List.length_nil]
    omega

theorem step_recording (s : Telemetry) (sig : Signal) (h : sig.isDelivery = false) :
    ∃ es, (step s sig).interactions = s.interactions ++ es ∧
      (step s sig).recorded = s.recorded ++ es ∧
      (step s sig).pending = s.pending ∧ (step s sig).storage = s.storage ∧
      (step s sig).beacons = s.beacons := by
  cases sig with
  | click c now =>
    by_cases h1 : s.onceClick = true <;> by_cases h2 : s.firstInteractionTracked = true <;>
      simp [step, onClick, clickListener, firstInteractionHandler, trackFirstInteraction,
        logEvent, h1, h2]
  | keydown now =>
    by_cases h1 : s.onceKeydown = true <;> by_cases h2 : s.firstInteractionTracked = true <;>
      simp [step, onKeydown, firstInteractionHandler, trackFirstInteraction, logEvent, h1, h2]
  | scroll now =>
    by_cases h1 : s.onceScroll = true <;> by_cases h2 : s.firstInteractionTracked = true <;>
      by_cases h3 : s.scrollTimeout = true <;>
      simp [step, onScroll, scrollListener, firstInteractionHandler, trackFirstInteraction,
        logEvent, h1, h2, h3]
  | scrollTimer y x m now =>
    by_cases h1 : s.scrollTimeout = true <;> simp [step, scrollTimer, logEvent, h1]
  | intersect q i b now =>
    by_cases h1 : (b && (getTiming s.questionTimings q).isNone) = true
    · simp only [step, onIntersect, h1, if_true]
      exact ⟨_, rfl, rfl, rfl, rfl, rfl⟩
    · simp only [step, onIntersect, h1]
      exact ⟨[], by simp⟩
  | answerChange q i v now => exact ⟨_, rfl, rfl, rfl, rfl, rfl⟩
  | capture ty data now => exact ⟨_, rfl, rfl, rfl, rfl, rfl⟩
  | flush => simp [Signal.isDelivery] at h
  | flushWithBeacon => simp [Signal.isDelivery] at h
  | fetchFailed i => simp [Signal.isDelivery] at h
  | fetchSucceeded i => simp [Signal.isDelivery] at h

theorem run_recording (s : Telemetry) (sigs : List Signal)
    (h : ∀ sig ∈ sigs, sig.isDelivery = false) :
    (run s sigs).interactions = s.interactions ++ recordedSince s (run s sigs) ∧
      (run s sigs).recorded = s.recorded ++ recordedSince s (run s sigs) ∧
      (run s sigs).pending = s.pending ∧ (run s sigs).storage = s.storage ∧
      (run s sigs).beacons = s.beacons := by
  induction sigs generalizing s with
  | nil => simp [run_nil, recordedSince]
  | cons sig rest ih =>
    obtain ⟨es, h1, h2, h3, h4, h5⟩ := step_recording s sig (h sig (List.mem_cons_self _ _))
    obtain ⟨k1, k2, k3, k4, k5⟩ := ih (step s sig) (fun x hx => h x (List.mem_cons_of_mem _ hx))
    rw [run_cons]
    have hrec : recordedSince s (run (step s sig) rest)
        = es ++ recordedSince (step s sig) (run (step s sig) rest) := by
      unfold recordedSince
      rw [k2, h2]
      simp [recordedSince, List.append_assoc]
    refine ⟨?_, ?_, ?_, ?_, ?_⟩
    · rw [hrec, k1, h1, List.append_assoc]
    · rw [hrec, k2, h2, List.append_assoc]
    · rw [k3, h3]
    · rw [k4, h4]
    · rw [k5, h5]

theorem burst_recording (n : Nat) : ∀ sig ∈ burst n, sig.isDelivery = false := by
  intro sig hsig
  simp only [burst, List.mem_map] at hsig
  obtain ⟨k, _, rfl⟩ := hsig
  rfl

theorem flush_of_nonempty (s : Telemetry) (h : s.interactions ≠ []) :
    flush s = { s with
      interactions := []
      pending := s.pending ++ [s.interactions]
      storage := backup s.storage s.interactions } := by
  have hl : ¬ s.interactions.length = 0 := by
    intro h0
    exact h (List.length_eq_zero.mp h0)
  simp [flush, hl]

theorem flushWithBeacon_of_nonempty (s : Telemetry) (h : s.interactions ≠ []) :
    flushWithBeacon s = { s with
      interactions := []
      beacons := s.beacons ++ [s.interactions]
      storage := backup s.storage s.interactions } := by
  have hl : ¬ s.interactions.length = 0 := by
    intro h0
    exact h (List.length_eq_zero.mp h0)
  simp [flushWithBeacon, hl]

theorem fetchFailed_of_pending (s : Telemetry) (i : Nat) (batch : List Event)
    (h : s.pending[i]? = some batch) :
    fetchFailed s i = { s with
      pending := s.pending.eraseIdx i
      interactions := sliceLast 1000 (batch ++ s.interactions) } := by
  simp [fetchFailed, h]

theorem fetchFailed_interactions (s : Telemetry) (i : Nat) (batch : List Event)
    (h : s.pending[i]? = some batch) :
    (fetchFailed s i).interactions = sliceLast 1000 (batch ++ s.interactions) := by
  rw [fetchFailed_of_pending s i batch h]

theorem fetchFailed_storage (s : Telemetry) (i : Nat) :
    (fetchFailed s i).storage = s.storage := by
  unfold fetchFailed
  split <;> rfl

theorem fetchFailed_recorded (s : Telemetry) (i : Nat) :
    (fetchFailed s i).recorded = s.recorded := by
  unfold fetchFailed
  split <;> rfl

theorem fetchFailed_pending (s : Telemetry) (i : Nat) :
    (fetchFailed s i).pending = s.pending.eraseIdx i := by
  unfold fetchFailed
  split
  · next hnone =>
    have hle : s.pending.length ≤ i := by
      by_contra hc
      rw [List.getElem?_eq_getElem (by omega)] at hnone
      exact Option.noConfusion hnone
    exact (List.eraseIdx_of_length_le hle).symm
  · rfl

theorem flush_interactions (s : Telemetry) : (flush s).interactions = [] := by
  by_cases h : s.interactions = []
  · simp [flush, h]
  · rw [flush_of_nonempty s h]

theorem flush_recorded (s : Telemetry) : (flush s).recorded = s.recorded := by
  unfold flush
  split <;> rfl

theorem flush_pending (s : Telemetry) (h : s.interactions ≠ []) :
    (flush s).pending = s.pending ++ [s.interactions] := by
  rw [flush_of_nonempty s h]

theorem flushWithBeacon_interactions (s : Telemetry) : (flushWithBeacon s).interactions = [] := by
  by_cases h : s.interactions = []
  · simp [flushWithBeacon, h]
  · rw [flushWithBeacon_of_nonempty s h]

theorem flushWithBeacon_recorded (s : Telemetry) :
    (flushWithBeacon s).recorded = s.recorded := by
  unfold flushWithBeacon
  split <;> rfl

theorem flushWithBeacon_pending (s : Telemetry) :
    (flushWithBeacon s).pending = s.pending := by
  unfold flushWithBeacon
  split <;> rfl

theorem getElem?_append_length {α : Type} (xs : List α) (x : α) :
    (xs ++ [x])[xs.length]? = some x := by
  simp

theorem backup_of_storedList (st : Stored) (prev events : List Event)
    (h : storedList st = some prev) :
    backup st events = Stored.events (sliceLast 1000 (prev ++ events)) := by
  cases st with
  | absent =>
    simp only [storedList, Option.some.injEq] at h
    subst h
    rfl
  | events l =>
    simp only [storedList, Option.some.injEq] at h
    subst h
    rfl
  | corrupt => simp [storedList] at h

/-! ## The event buffer and the delivery manager -/

/-- C1 (counterexample): 1500 events recorded with no flush at all leave 1500
events in `interactions`, more than 1000: `logEvent` appends without a cap. -/
theorem append_is_uncapped :
    (run blank (burst 1500)).interactions.length = 1500 ∧
      ¬ (run blank (burst 1500)).interactions.length ≤ 1000 := by
  have h := burst_run_interactions 1500 blank
  have hb : blank.interactions.length = 0 := rfl
  omega

/-- C1 (amended): the cap of 1000 is applied by the failure handler of `flush`
only. Right after it has run for a pending batch, `interactions` is the failed
batch followed by the live buffer with all but the last 1000 events dropped,
so it holds at most 1000 events; `logEvent` adds exactly one event to any
buffer, also to one that already holds 1000. -/
theorem requeue_caps_buffer (s : Telemetry) (i : Nat) (batch : List Event)
    (h : s.pending[i]? = some batch) :
    (fetchFailed s i).interactions
        = (batch ++ s.interactions).drop (batch.length + s.interactions.length - 1000) ∧
      (fetchFailed s i).interactions.length ≤ 1000 ∧
      (batch.length + s.interactions.length ≥ 1000 →
        (fetchFailed s i).interactions.length = 1000) ∧
      ∀ ty data now,
        (logEvent (fetchFailed s i) ty data now).interactions.length
          = (fetchFailed s i).interactions.length + 1 := by
  have hI : (fetchFailed s i).interactions = sliceLast 1000 (batch ++ s.interactions) := by
    rw [fetchFailed_of_pending s i batch h]
  have hlen : (sliceLast 1000 (batch ++ s.interactions)).length
      = batch.length + s.interactions.length - (batch.length + s.interactions.length - 1000) := by
    unfold sliceLast
    rw [List.length_drop, List.length_append]
  refine ⟨?_, ?_, ?_, ?_⟩
  · rw [hI]
    unfold sliceLast
    rw [List.length_append]
  · rw [hI, hlen]
    omega
  · intro hge
    rw [hI, hlen]
    omega
  · intro ty data now
    unfold logEvent
    simp only [List.length_append, List.length_cons, List.length_nil]

/-- Witness of `requeue_caps_buffer`: one event, flushed, and the fetch fails. -/
theorem requeue_caps_buffer_witness :
    (fetchFailed (flush (run blank (burst 1))) 0).interactions.length ≤ 1000 :=
  (requeue_caps_buffer (flush (run blank (burst 1))) 0 (run blank (burst 1)).interactions
    (by decide)).2.1

/-- C2 (counterexample): a buffer of 1001 events is flushed and the transport
fails at once; the buffer read next does not start with the failed batch (its
oldest event is gone). -/
theorem requeue_loses_front :
    (run blank (burst 1001)).interactions ≠ [] ∧
      ¬ ((run blank (burst 1001)).interactions
          <+: (fetchFailed (flush (run blank (burst 1001))) 0).interactions) := by
  have hlen : (run blank (burst 1001)).interactions.length = 1001 := by
    have h := burst_run_interactions 1001 blank
    have hb : blank.interactions.length = 0 := rfl
    omega
  have hpend : (run blank (burst 1001)).pending = [] :=
    (run_recording blank (burst 1001) (burst_recording 1001)).2.2.1
  generalize run blank (burst 1001) = s at hlen hpend
  have hne : s.interactions ≠ [] := by
    intro h0
    rw [h0] at hlen
    simp at hlen
  refine ⟨hne, ?_⟩
  intro hpre
  have hle := hpre.length_le
  have hget : (flush s).pending[0]? = some s.interactions := by
    rw [flush_of_nonempty _ hne]
    simp [hpend]
  rw [fetchFailed_of_pending _ 0 _ hget] at hle
  have hcap := sliceLast_length_le 1000 (s.interactions ++ (flush s).interactions)
  simp only at hle
  omega

/-- C2 (amended): a non-empty buffer is flushed, events are recorded while the
transport is pending, and the transport fails. The buffer read next is the
failed batch followed by the events recorded meanwhile, cut to its last 1000
events; it is the whole failed batch followed by those events when the two
together are at most 1000. The backup item, when it was readable, holds the
last 1000 events of its previous list followed by the batch, and ends with
the whole batch when the batch has at most 1000 events. -/
theorem failed_flush_requeue (s : Telemetry) (mid : List Signal)
    (h : s.interactions ≠ []) (hmid : ∀ sig ∈ mid, sig.isDelivery = false) :
    (fetchFailed (run (flush s) mid) s.pending.length).interactions
        = sliceLast 1000 (s.interactions ++ recordedSince (flush s) (run (flush s) mid)) ∧
      (s.interactions.length + (recordedSince (flush s) (run (flush s) mid)).length ≤ 1000 →
        (fetchFailed (run (flush s) mid) s.pending.length).interactions
          = s.interactions ++ recordedSince (flush s) (run (flush s) mid)) ∧
      (∀ prev, storedList s.storage = some prev →
        (fetchFailed (run (flush s) mid) s.pending.length).storage
            = Stored.events (sliceLast 1000 (prev ++ s.interactions)) ∧
          (s.interactions.length ≤ 1000 →
            s.interactions <:+ sliceLast 1000 (prev ++ s.interactions))) := by
  obtain ⟨k1, _, k3, k4, _⟩ := run_recording (flush s) mid hmid
  have hf := flush_of_nonempty s h
  have hfI : (flush s).interactions = [] := by rw [hf]
  have hfP : (flush s).pending = s.pending ++ [s.interactions] := by rw [hf]
  have hfS : (flush s).storage = backup s.storage s.interactions := by rw [hf]
  have hget : (run (flush s) mid).pending[s.pending.length]? = some s.interactions := by
    rw [k3, hfP]
    exact getElem?_append_length _ _
  have hI : (fetchFailed (run (flush s) mid) s.pending.length).interactions
      = sliceLast 1000 (s.interactions ++ recordedSince (flush s) (run (flush s) mid)) := by
    rw [fetchFailed_interactions _ _ _ hget, k1, hfI, List.nil_append]
  have hS : (fetchFailed (run (flush s) mid) s.pending.length).storage
      = backup s.storage s.interactions := by
    rw [fetchFailed_storage, k4, hfS]
  refine ⟨hI, ?_, ?_⟩
  · intro hle
    rw [hI]
    apply sliceLast_eq_self
    rw [List.length_append]
    exact hle
  · intro prev hprev
    refine ⟨?_, ?_⟩
    · rw [hS]
      exact backup_of_storedList _ _ _ hprev
    · intro hle
      by_cases hc : 1000 ≤ (prev ++ s.interactions).length
      · exact sliceLast_append_right 1000 prev s.interactions hle hc
      · rw [sliceLast_eq_self 1000 _ (by omega)]
        exact List.suffix_append _ _

/-- Witness of `failed_flush_requeue`: one event is flushed, one more is
recorded while the fetch is pending, and the fetch fails. -/
theorem failed_flush_requeue_witness :
    (fetchFailed (run (flush (run blank (burst 1))) (burst 1))
        (run blank (burst 1)).pending.length).interactions
      = sliceLast 1000 ((run blank (burst 1)).interactions
          ++ recordedSince (flush (run blank (burst 1)))
              (run (flush (run blank (burst 1))) (burst 1))) :=
  (failed_flush_requeue (run blank (burst 1)) (burst 1) (by decide) (by decide)).1

/-- C4: on a non-empty buffer `flush` hands `fetch` exactly the buffer, in
order, as one new pending batch, sends no beacon and leaves `interactions`
empty; whatever is recorded afterwards makes up the new buffer and leaves the
pending batch as it was. On an empty buffer `flush` changes nothing. -/
theorem flush_hands_over_buffer (s : Telemetry) :
    (s.interactions ≠ [] →
      (flush s).pending = s.pending ++ [s.interactions] ∧
      (flush s).interactions = [] ∧
      (flush s).beacons = s.beacons ∧
      (flush s).recorded = s.recorded ∧
      ∀ mid, (∀ sig ∈ mid, sig.isDelivery = false) →
        (run (flush s) mid).interactions = recordedSince (flush s) (run (flush s) mid) ∧
        (run (flush s) mid).pending = s.pending ++ [s.interactions]) ∧
    (s.interactions = [] → flush s = s) := by
  refine ⟨?_, ?_⟩
  · intro h
    have hf := flush_of_nonempty s h
    have hfI : (flush s).interactions = [] := by rw [hf]
    have hfP : (flush s).pending = s.pending ++ [s.interactions] := by rw [hf]
    refine ⟨hfP, hfI, by rw [hf], by rw [hf], ?_⟩
    intro mid hmid
    obtain ⟨k1, _, k3, _, _⟩ := run_recording (flush s) mid hmid
    refine ⟨?_, ?_⟩
    · rw [k1, hfI, List.nil_append]
    · rw [k3, hfP]
  · intro h
    simp [flush, h]

/-- Witness of `flush_hands_over_buffer`: a buffer of two events is handed over
whole, and the empty buffer of the blank object is left alone. -/
theorem flush_hands_over_buffer_witness :
    (flush (run blank (burst 2))).pending = [(run blank (burst 2)).interactions] ∧
      flush blank = blank :=
  ⟨((flush_hands_over_buffer (run blank (burst 2))).1 (by decide)).1,
    (flush_hands_over_buffer blank).2 rfl⟩

/-- C9: when the backup item is readable (missing counts as the empty list)
and the buffer is non-empty, `flush` and `flushWithBeacon` both store the last
1000 events of the previous list followed by the batch; the stored list has at
most 1000 events, and neither outcome of the transport touches it. -/
theorem backup_keeps_last_1000 (s : Telemetry) (prev : List Event)
    (hprev : storedList s.storage = some prev) (h : s.interactions ≠ []) :
    (flush s).storage = Stored.events (sliceLast 1000 (prev ++ s.interactions)) ∧
      (flushWithBeacon s).storage = Stored.events (sliceLast 1000 (prev ++ s.interactions)) ∧
      (sliceLast 1000 (prev ++ s.interactions)).length ≤ 1000 ∧
      (sliceLast 1000 (prev ++ s.interactions)
        = (prev ++ s.interactions).drop ((prev ++ s.interactions).length - 1000)) ∧
      (∀ i, (fetchFailed (flush s) i).storage = (flush s).storage) ∧
      (∀ i, (fetchSucceeded (flush s) i).storage = (flush s).storage) := by
  refine ⟨?_, ?_, sliceLast_length_le _ _, rfl, ?_, ?_⟩
  · rw [flush_of_nonempty s h]
    exact backup_of_storedList _ _ _ hprev
  · rw [flushWithBeacon_of_nonempty s h]
    exact backup_of_storedList _ _ _ hprev
  · intro i
    exact fetchFailed_storage _ i
  · intro i
    rfl

/-- Witness of `backup_keeps_last_1000`: two events flushed into a missing item. -/
theorem backup_keeps_last_1000_witness :
    (flush (run blank (burst 2))).storage
      = Stored.events (sliceLast 1000 ([] ++ (run blank (burst 2)).interactions)) :=
  (backup_keeps_last_1000 (run blank (burst 2)) [] rfl (by decide)).1

/-! ## Order of the buffer -/

theorem inOrder_step (s : Telemetry) (sig : Signal) (hinv : InOrder s)
    (hflush : sig = Signal.flush → s.pending = [] ∨ s.interactions = []) :
    InOrder (step s sig) := by
  obtain ⟨hlen, hI, hP⟩ := hinv
  by_cases hd : sig.isDelivery = false
  · obtain ⟨es, h1, h2, h3, _, _⟩ := step_recording s sig hd
    refine ⟨by rw [h3]; exact hlen, ?_, ?_⟩
    · rw [h1, h2]
      exact hI.append (List.Sublist.refl es)
    · intro b hb
      rw [h3] at hb
      rw [h1, h2, ← List.append_assoc]
      exact (hP b hb).append (List.Sublist.refl es)
  · cases sig with
    | flush =>
      by_cases hne : s.interactions = []
      · have : flush s = s := by simp [flush, hne]
        simp only [step, this]
        exact ⟨hlen, hI, hP⟩
      · have hp : s.pending = [] := by
          rcases hflush rfl with hp | hp
          · exact hp
          · exact absurd hp hne
        simp only [step]
        refine ⟨?_, ?_, ?_⟩
        · rw [flush_pending s hne, hp]
          simp
        · rw [flush_interactions]
          exact List.nil_sublist _
        · intro b hb
          rw [flush_pending s hne, hp, List.nil_append, List.mem_singleton] at hb
          rw [flush_interactions, flush_recorded, hb, List.append_nil]
          exact hI
    | flushWithBeacon =>
      simp only [step]
      refine ⟨?_, ?_, ?_⟩
      · rw [flushWithBeacon_pending]
        exact hlen
      · rw [flushWithBeacon_interactions]
        exact List.nil_sublist _
      · intro b hb
        rw [flushWithBeacon_pending] at hb
        rw [flushWithBeacon_interactions, flushWithBeacon_recorded, List.append_nil]
        exact (List.sublist_append_left b s.interactions).trans (hP b hb)
    | fetchFailed i =>
      simp only [step]
      cases hget : s.pending[i]? with
      | none =>
        have : fetchFailed s i = s := by simp [fetchFailed, hget]
        rw [this]
        exact ⟨hlen, hI, hP⟩
      | some b =>
        have hb : b ∈ s.pending := List.getElem?_mem hget
        have hlt : i < s.pending.length := by
          by_contra hc
          rw [List.getElem?_eq_none (by omega)] at hget
          exact Option.noConfusion hget
        have herase : s.pending.eraseIdx i = [] := by
          apply List.eq_nil_of_length_eq_zero
          have := List.length_eraseIdx_of_lt hlt
          omega
        refine ⟨?_, ?_, ?_⟩
        · rw [fetchFailed_pending, herase]
          simp
        · rw [fetchFailed_interactions s i b hget, fetchFailed_recorded]
          exact (sliceLast_sublist 1000 (b ++ s.interactions)).trans (hP b hb)
        · intro c hc
          rw [fetchFailed_pending, herase] at hc
          exact absurd hc (List.not_mem_nil c)
    | fetchSucceeded i =>
      simp only [step, fetchSucceeded]
      refine ⟨(List.length_eraseIdx_le _ _).trans hlen, hI, ?_⟩
      intro b hb
      exact hP b (List.mem_of_mem_eraseIdx hb)
    | click c now => exact absurd rfl hd
    | keydown now => exact absurd rfl hd
    | scroll now => exact absurd rfl hd
    | scrollTimer y x m now => exact absurd rfl hd
    | intersect q i b now => exact absurd rfl hd
    | answerChange q i v now => exact absurd rfl hd
    | capture ty data now => exact absurd rfl hd

theorem inOrder_run (s : Telemetry) (sigs : List Signal) (hinv : InOrder s)
    (h : singleFlight s sigs = true) : InOrder (run s sigs) := by
  induction sigs generalizing s with
  | nil => exact hinv
  | cons sig rest ih =>
    rw [run_cons]
    simp only [singleFlight, Bool.and_eq_true] at h
    apply ih _ _ h.2
    apply inOrder_step s sig hinv
    intro hsig
    subst hsig
    have h1 := h.1
    simp only [Bool.or_eq_true, List.isEmpty_iff] at h1
    exact h1

/-- C3 (counterexample): with two flushes in flight whose failures arrive in
the order of the flushes, the buffer ends with the event recorded second
ahead of the event recorded first. -/
theorem overlapping_failures_reorder :
    (run blank overlappingFlushes).recorded
        = [⟨"visibility_change", none, 1, [("hidden", Value.bool true)]⟩,
           ⟨"visibility_change", none, 2, [("hidden", Value.bool false)]⟩] ∧
      (run blank overlappingFlushes).interactions
        = [⟨"visibility_change", none, 2, [("hidden", Value.bool false)]⟩,
           ⟨"visibility_change", none, 1, [("hidden", Value.bool true)]⟩] ∧
      ¬ (run blank overlappingFlushes).interactions.Sublist
          (run blank overlappingFlushes).recorded := by
  decide

/-- C3 (amended): from page load on, every interleaving of signals in which no
`flush` of a non-empty buffer starts while a fetch is pending keeps the events
of `interactions` in the order in which they were recorded. -/
theorem order_kept_single_flight (pageLoadTime : Int) (assignmentId : Option Int)
    (storage : Stored) (sid : String) (p : PageInfo) (now : Int) (sigs : List Signal)
    (h : singleFlight (atLoad pageLoadTime assignmentId storage sid p now) sigs = true) :
    (run (atLoad pageLoadTime assignmentId storage sid p now) sigs).interactions.Sublist
      (run (atLoad pageLoadTime assignmentId storage sid p now) sigs).recorded := by
  have hinv : InOrder (atLoad pageLoadTime assignmentId storage sid p now) := by
    refine ⟨?_, ?_, ?_⟩
    · simp [atLoad, init, setupEventListeners, trackPageLoad, logEvent, fresh]
    · exact List.Sublist.refl _
    · intro b hb
      simp [atLoad, init, setupEventListeners, trackPageLoad, logEvent, fresh] at hb
  exact (inOrder_run _ sigs hinv h).2.1

/-- Witness of `order_kept_single_flight`: a failed flush between three events. -/
theorem order_kept_single_flight_witness :
    (run (atLoad 1000 (some 3) Stored.absent "sess_1000_abc" samplePage 1001)
        retriedFlush).interactions.Sublist
      (run (atLoad 1000 (some 3) Stored.absent "sess_1000_abc" samplePage 1001)
        retriedFlush).recorded :=
  order_kept_single_flight 1000 (some 3) Stored.absent "sess_1000_abc" samplePage 1001
    retriedFlush (by decide)

/-! ## The question timing map -/

theorem getTiming_setTiming_same (m : List (String × QuestionTiming)) (k : String)
    (v : QuestionTiming) : getTiming (setTiming m k v) k = some v := by
  induction m with
  | nil => simp [setTiming, getTiming]
  | cons hd tl ih =>
    obtain ⟨k0, w⟩ := hd
    by_cases h : k0 = k
    · simp [setTiming, getTiming, h]
    · simp [setTiming, getTiming, h, ih]

theorem getTiming_setTiming_other (m : List (String × QuestionTiming)) (k k1 : String)
    (v : QuestionTiming) (h : k1 ≠ k) : getTiming (setTiming m k v) k1 = getTiming m k1 := by
  induction m with
  | nil =>
    have h2 : ¬ k = k1 := fun e => h e.symm
    simp [setTiming, getTiming, h2]
  | cons hd tl ih =>
    obtain ⟨k0, w⟩ := hd
    by_cases h0 : k0 = k
    · subst h0
      have h2 : ¬ k0 = k1 := fun e => h e.symm
      simp [setTiming, getTiming, h2]
    · by_cases h3 : k0 = k1
      · subst h3
        simp [setTiming, getTiming, h0]
      · simp [setTiming, getTiming, h0, h3, ih]

theorem mem_keys_setTiming (m : List (String × QuestionTiming)) (k x : String)
    (v : QuestionTiming) :
    x ∈ (setTiming m k v).map Prod.fst ↔ x ∈ m.map Prod.fst ∨ x = k := by
  induction m with
  | nil => simp [setTiming]
  | cons hd tl ih =>
    obtain ⟨k0, w⟩ := hd
    by_cases h0 : k0 = k
    · subst h0
      simp only [setTiming, if_true, List.map_cons, List.mem_cons]
      tauto
    · simp only [setTiming, h0, if_false, List.map_cons, List.mem_cons, ih]
      tauto

theorem nodup_keys_setTiming (m : List (String × QuestionTiming)) (k : String)
    (v : QuestionTiming) (h : (m.map Prod.fst).Nodup) :
    ((setTiming m k v).map Prod.fst).Nodup := by
  induction m with
  | nil => simp [setTiming]
  | cons hd tl ih =>
    obtain ⟨k0, w⟩ := hd
    simp only [List.map_cons, List.nodup_cons] at h
    by_cases h0 : k0 = k
    · subst h0
      simp only [setTiming, if_true, List.map_cons, List.nodup_cons]
      exact h
    · simp only [setTiming, h0, if_false, List.map_cons, List.nodup_cons]
      refine ⟨?_, ih h.2⟩
      intro hmem
      rcases (mem_keys_setTiming tl k k0 v).mp hmem with h1 | h1
      · exact h.1 h1
      · exact h0 h1

theorem logEvent_questionTimings (s : Telemetry) (ty : String) (data : List (String × Value))
    (now : Int) : (logEvent s ty data now).questionTimings = s.questionTimings := rfl

theorem step_questionTimings (s : Telemetry) (sig : Signal) :
    (step s sig).questionTimings =
      match sig with
      | Signal.intersect q _ b now =>
        if b && (getTiming s.questionTimings q).isNone then
          setTiming s.questionTimings q { focusedAt := now, answeredAt := none }
        else s.questionTimings
      | Signal.answerChange q _ _ now =>
        setTiming s.questionTimings q
          { focusedAt := ((getTiming s.questionTimings q).map (fun r => r.focusedAt)).getD now
            answeredAt := some now }
      | _ => s.questionTimings := by
  cases sig with
  | click c now =>
    by_cases h1 : s.onceClick = true <;> by_cases h2 : s.firstInteractionTracked = true <;>
      simp [step, onClick, clickListener, firstInteractionHandler, trackFirstInteraction,
        logEvent, h1, h2]
  | keydown now =>
    by_cases h1 : s.onceKeydown = true <;> by_cases h2 : s.firstInteractionTracked = true <;>
      simp [step, onKeydown, firstInteractionHandler, trackFirstInteraction, logEvent, h1, h2]
  | scroll now =>
    by_cases h1 : s.onceScroll = true <;> by_cases h2 : s.firstInteractionTracked = true <;>
      by_cases h3 : s.scrollTimeout = true <;>
      simp [step, onScroll, scrollListener, firstInteractionHandler, trackFirstInteraction,
        logEvent, h1, h2, h3]
  | scrollTimer y x m now =>
    by_cases h1 : s.scrollTimeout = true <;> simp [step, scrollTimer, logEvent, h1]
  | intersect q i b now =>
    by_cases h1 : (b && (getTiming s.questionTimings q).isNone) = true
    · simp only [step, onIntersect, h1, if_true]
      rfl
    · simp only [step, onIntersect, h1]
      rfl
  | answerChange q i v now =>
    simp only [step, onAnswerChange]
    cases getTiming s.questionTimings q <;> rfl
  | capture ty data now => rfl
  | flush =>
    simp only [step, flush]
    split <;> rfl
  | flushWithBeacon =>
    simp only [step, flushWithBeacon]
    split <;> rfl
  | fetchFailed i =>
    simp only [step, fetchFailed]
    split <;> rfl
  | fetchSucceeded i => rfl

theorem step_keeps_focusedAt (s : Telemetry) (sig : Signal) (q : String) (r : QuestionTiming)
    (h : getTiming s.questionTimings q = some r) :
    ∃ r1, getTiming (step s sig).questionTimings q = some r1 ∧ r1.focusedAt = r.focusedAt := by
  rw [step_questionTimings]
  cases sig with
  | intersect q1 i b now =>
    simp only
    by_cases hq : q1 = q
    · subst hq
      simp only [h, Option.isNone_some, Bool.and_false, Bool.false_eq_true, if_false]
      exact ⟨r, rfl, rfl⟩
    · split
      · rw [getTiming_setTiming_other _ _ _ _ (fun e => hq e.symm)]
        exact ⟨r, h, rfl⟩
      · exact ⟨r, h, rfl⟩
  | answerChange q1 i v now =>
    simp only
    by_cases hq : q1 = q
    · subst hq
      rw [getTiming_setTiming_same, h]
      exact ⟨_, rfl, rfl⟩
    · rw [getTiming_setTiming_other _ _ _ _ (fun e => hq e.symm)]
      exact ⟨r, h, rfl⟩
  | click c now => exact ⟨r, h, rfl⟩
  | keydown now => exact ⟨r, h, rfl⟩
  | scroll now => exact ⟨r, h, rfl⟩
  | scrollTimer y x m now => exact ⟨r, h, rfl⟩
  | capture ty data now => exact ⟨r, h, rfl⟩
  | flush => exact ⟨r, h, rfl⟩
  | flushWithBeacon => exact ⟨r, h, rfl⟩
  | fetchFailed i => exact ⟨r, h, rfl⟩
  | fetchSucceeded i => exact ⟨r, h, rfl⟩

theorem run_keeps_focusedAt (s : Telemetry) (sigs : List Signal) (q : String)
    (r : QuestionTiming) (h : getTiming s.questionTimings q = some r) :
    ∃ r1, getTiming (run s sigs).questionTimings q = some r1 ∧ r1.focusedAt = r.focusedAt := by
  induction sigs generalizing s r with
  | nil => exact ⟨r, h, rfl⟩
  | cons sig rest ih =>
    obtain ⟨r1, h1, e1⟩ := step_keeps_focusedAt s sig q r h
    obtain ⟨r2, h2, e2⟩ := ih (step s sig) r1 h1
    exact ⟨r2, h2, e2.trans e1⟩

theorem step_keys_nodup (s : Telemetry) (sig : Signal) (h : (timingKeys s).Nodup) :
    (timingKeys (step s sig)).Nodup := by
  unfold timingKeys at *
  rw [step_questionTimings]
  cases sig with
  | intersect q1 i b now =>
    simp only
    split
    · exact nodup_keys_setTiming _ _ _ h
    · exact h
  | answerChange q1 i v now => exact nodup_keys_setTiming _ _ _ h
  | click c now => exact h
  | keydown now => exact h
  | scroll now => exact h
  | scrollTimer y x m now => exact h
  | capture ty data now => exact h
  | flush => exact h
  | flushWithBeacon => exact h
  | fetchFailed i => exact h
  | fetchSucceeded i => exact h

theorem run_keys_nodup (s : Telemetry) (sigs : List Signal) (h : (timingKeys s).Nodup) :
    (timingKeys (run s sigs)).Nodup := by
  induction sigs generalizing s with
  | nil => exact h
  | cons sig rest ih => exact ih (step s sig) (step_keys_nodup s sig h)

theorem filter_append_singleton_false {α : Type} (f : α → Bool) (xs : List α) (x : α)
    (h : f x = false) : (xs ++ [x]).filter f = xs.filter f := by
  simp [List.filter_append, h]

theorem logEvent_recorded (s : Telemetry) (ty : String) (data : List (String × Value))
    (now : Int) :
    (logEvent s ty data now).recorded
      = s.recorded ++ [⟨ty, s.sessionId, now, data⟩] := rfl

theorem step_focus_events_other (s : Telemetry) (sig : Signal) (q : String)
    (hforge : sig.capturesType "question_focus" = false)
    (hsig : ∀ q1 i b now, sig ≠ Signal.intersect q1 i b now) :
    (step s sig).recorded.filter (isFocusEventFor q) = s.recorded.filter (isFocusEventFor q) := by
  cases sig with
  | click c now =>
    by_cases h1 : s.onceClick = true <;> by_cases h2 : s.firstInteractionTracked = true <;>
      simp [step, onClick, clickListener, firstInteractionHandler, trackFirstInteraction,
        logEvent, h1, h2, List.filter_append, isFocusEventFor]
  | keydown now =>
    by_cases h1 : s.onceKeydown = true <;> by_cases h2 : s.firstInteractionTracked = true <;>
      simp [step, onKeydown, firstInteractionHandler, trackFirstInteraction, logEvent, h1, h2,
        List.filter_append, isFocusEventFor]
  | scroll now =>
    by_cases h1 : s.onceScroll = true <;> by_cases h2 : s.firstInteractionTracked = true <;>
      by_cases h3 : s.scrollTimeout = true <;>
      simp [step, onScroll, scrollListener, firstInteractionHandler, trackFirstInteraction,
        logEvent, h1, h2, h3, List.filter_append, isFocusEventFor]
  | scrollTimer y x m now =>
    by_cases h1 : s.scrollTimeout = true <;>
      simp [step, scrollTimer, logEvent, h1, List.filter_append, isFocusEventFor]
  | intersect q1 i b now => exact absurd rfl (hsig q1 i b now)
  | answerChange q1 i v now =>
    simp [step, onAnswerChange, logEvent, List.filter_append, isFocusEventFor]
  | capture ty data now =>
    have hty : (ty == "question_focus") = false := hforge
    simp [step, logEvent, List.filter_append, isFocusEventFor, hty]
  | flush => rw [step, flush_recorded]
  | flushWithBeacon => rw [step, flushWithBeacon_recorded]
  | fetchFailed i => rw [step, fetchFailed_recorded]
  | fetchSucceeded i => rfl

theorem step_focusOnce (s : Telemetry) (sig : Signal) (q : String)
    (hforge : sig.capturesType "question_focus" = false) (h : FocusOnce q s) :
    FocusOnce q (step s sig) := by
  obtain ⟨hle, hnone⟩ := h
  by_cases hsig : ∀ q1 i b now, sig ≠ Signal.intersect q1 i b now
  · unfold FocusOnce
    rw [step_focus_events_other s sig q hforge hsig]
    refine ⟨hle, ?_⟩
    intro hn
    apply hnone
    cases hq : getTiming s.questionTimings q with
    | none => rfl
    | some r =>
      obtain ⟨r1, h1, _⟩ := step_keeps_focusedAt s sig q r hq
      rw [h1] at hn
      exact Option.noConfusion hn
  · push_neg at hsig
    obtain ⟨q1, i, b, now, rfl⟩ := hsig
    by_cases hfire : (b && (getTiming s.questionTimings q1).isNone) = true
    · by_cases hq : q1 = q
      · subst hq
        have hn : getTiming s.questionTimings q1 = none := by
          simp only [Bool.and_eq_true, Option.isNone_iff_eq_none] at hfire
          exact hfire.2
        have hold := hnone hn
        unfold FocusOnce
        simp only [step, onIntersect, hfire, if_true, logEvent_recorded, List.filter_append, hold,
          List.nil_append]
        refine ⟨?_, ?_⟩
        · exact (List.length_filter_le _ _).trans (by simp)
        · intro hcontra
          rw [logEvent_questionTimings, getTiming_setTiming_same] at hcontra
          exact Option.noConfusion hcontra
      · have hev : isFocusEventFor q
            ⟨"question_focus", s.sessionId, now,
              [("questionId", Value.str q1), ("questionIndex", Value.num i),
               ("timeOnPage", Value.num (now - s.pageLoadTime)),
               ("assignmentId", optNum s.assignmentId)]⟩ = false := by
          simp [isFocusEventFor, List.lookup, hq]
        unfold FocusOnce
        simp only [step, onIntersect, hfire, if_true, logEvent_recorded, logEvent_questionTimings]
        rw [getTiming_setTiming_other _ _ _ _ (fun e => hq e.symm)]
        have hrw := filter_append_singleton_false (isFocusEventFor q) s.recorded _ hev
        simp only [assignmentField] at hrw ⊢
        rw [hrw]
        exact ⟨hle, hnone⟩
    · simp only [step, onIntersect, hfire]
      exact ⟨hle, hnone⟩

theorem run_focusOnce (s : Telemetry) (sigs : List Signal) (q : String)
    (hforge : ∀ sig ∈ sigs, sig.capturesType "question_focus" = false) (h : FocusOnce q s) :
    FocusOnce q (run s sigs) := by
  induction sigs generalizing s with
  | nil => exact h
  | cons sig rest ih =>
    exact ih (step s sig) (fun x hx => hforge x (List.mem_cons_of_mem _ hx))
      (step_focusOnce s sig q (hforge sig (List.mem_cons_self _ _)) h)

theorem onAnswerChange_interactions (s : Telemetry) (q : String) (i : Nat) (v : String)
    (now : Int) :
    (onAnswerChange s q i v now).interactions = s.interactions ++
      [⟨"question_answer", s.sessionId, now,
        [("questionId", Value.str q), ("questionIndex", Value.num i),
         ("selectedValue", Value.str v),
         ("timeToAnswerMs",
           Value.num (now - ((getTiming s.questionTimings q).map (fun r => r.focusedAt)).getD now)),
         ("timeOnPage", Value.num (now - s.pageLoadTime)),
         ("assignmentId", optNum s.assignmentId)]⟩] := by
  unfold onAnswerChange
  cases getTiming s.questionTimings q <;> rfl

theorem onAnswerChange_timing (s : Telemetry) (q : String) (i : Nat) (v : String) (now : Int) :
    getTiming (onAnswerChange s q i v now).questionTimings q =
      some { focusedAt := ((getTiming s.questionTimings q).map (fun r => r.focusedAt)).getD now
             answeredAt := some now } := by
  have h := step_questionTimings s (Signal.answerChange q i v now)
  simp only [step] at h
  rw [h, getTiming_setTiming_same]

theorem onIntersect_timing (s : Telemetry) (q : String) (i : Nat) (now : Int)
    (h : getTiming s.questionTimings q = none) :
    getTiming (onIntersect s q i true now).questionTimings q
      = some { focusedAt := now, answeredAt := none } := by
  have hs := step_questionTimings s (Signal.intersect q i true now)
  simp only [step, h, Option.isNone_none, Bool.and_self, if_true] at hs
  rw [hs, getTiming_setTiming_same]

/-- C5: for a question without a timing record, a visibility signal at `t0`
followed by any signals and then an answer change at `t1` records a
`question_answer` event with `timeToAnswerMs = t1 - t0` and leaves the record
with `focusedAt = t0`; an answer change at `t1` with no visibility signal
before it records `timeToAnswerMs = 0` and creates the record with
`focusedAt = answeredAt = t1`. -/
theorem time_to_answer (s : Telemetry) (q : String) (i j : Nat) (v : String) (t0 t1 : Int)
    (mid : List Signal) (h : getTiming s.questionTimings q = none) :
    (∃ e, (onAnswerChange (run (onIntersect s q i true t0) mid) q j v t1).interactions
          = (run (onIntersect s q i true t0) mid).interactions ++ [e] ∧
        e.eventType = "question_answer" ∧
        e.data.lookup "questionId" = some (Value.str q) ∧
        e.data.lookup "timeToAnswerMs" = some (Value.num (t1 - t0))) ∧
      getTiming (onAnswerChange (run (onIntersect s q i true t0) mid) q j v t1).questionTimings q
        = some { focusedAt := t0, answeredAt := some t1 } ∧
      (∃ e, (onAnswerChange s q j v t1).interactions = s.interactions ++ [e] ∧
        e.eventType = "question_answer" ∧
        e.data.lookup "questionId" = some (Value.str q) ∧
        e.data.lookup "timeToAnswerMs" = some (Value.num 0)) ∧
      getTiming (onAnswerChange s q j v t1).questionTimings q
        = some { focusedAt := t1, answeredAt := some t1 } := by
  obtain ⟨r1, h1, e1⟩ := run_keeps_focusedAt (onIntersect s q i true t0) mid q _
    (onIntersect_timing s q i t0 h)
  simp only at e1
  refine ⟨⟨_, onAnswerChange_interactions _ q j v t1, rfl, ?_, ?_⟩, ?_,
    ⟨_, onAnswerChange_interactions s q j v t1, rfl, ?_, ?_⟩, ?_⟩
  · simp [List.lookup]
  · simp [List.lookup, h1, e1]
  · rw [onAnswerChange_timing, h1]
    simp [e1]
  · simp [List.lookup]
  · simp [List.lookup, h]
  · rw [onAnswerChange_timing, h]
    rfl

/-- Witness of `time_to_answer`: question 12 becomes visible at 2000 and is answered at 4500. -/
theorem time_to_answer_witness :
    getTiming (onAnswerChange (run (onIntersect sampleLoad "12" 0 true 2000) []) "12" 0 "b"
        4500).questionTimings "12"
      = some { focusedAt := 2000, answeredAt := some 4500 } :=
  (time_to_answer sampleLoad "12" 0 0 "b" 2000 4500 [] (by decide)).2.1

/-- C6 (counterexample): question 12 is answered at 100 and again at 200; its
record then has `answeredAt = 200`, not the instant 100 of the first answer. -/
theorem answeredAt_is_overwritten :
    getTiming (onAnswerChange (onAnswerChange blank "12" 0 "a" 100) "12" 0 "b"
        200).questionTimings "12"
      = some { focusedAt := 100, answeredAt := some 200 } ∧
    (getTiming (onAnswerChange (onAnswerChange blank "12" 0 "a" 100) "12" 0 "b"
        200).questionTimings "12").map (fun r => r.answeredAt) ≠ some (some 100) := by
  decide

/-- C6 (amended): `answeredAt` of a question's timing record is the instant of
the latest answer change. After answer changes at `t1` and later at `t2`, with
any signals in between, the record has `answeredAt = t2`, and its `focusedAt`
is the one it had after the first of the two. -/
theorem answeredAt_is_latest (s : Telemetry) (q : String) (i j : Nat) (v w : String)
    (t1 t2 : Int) (mid : List Signal) :
    ∃ r1 r2,
      getTiming (onAnswerChange s q i v t1).questionTimings q = some r1 ∧
      r1.answeredAt = some t1 ∧
      getTiming (onAnswerChange (run (onAnswerChange s q i v t1) mid) q j w t2).questionTimings q
        = some r2 ∧
      r2.answeredAt = some t2 ∧ r2.focusedAt = r1.focusedAt := by
  obtain ⟨r, hr, er⟩ := run_keeps_focusedAt (onAnswerChange s q i v t1) mid q _
    (onAnswerChange_timing s q i v t1)
  refine ⟨_, _, onAnswerChange_timing s q i v t1, rfl, onAnswerChange_timing _ q j w t2, rfl, ?_⟩
  simp only [hr, Option.map_some', Option.getD_some]
  exact er

/-- C7: from page load on, under any signals (no bare `logEvent` call forging
a `question_focus` event among them): a `focusedAt` held by the record of `q`
after a first part of the signals is still the record's `focusedAt` after the
rest of them, a visibility signal for `q` is then a no-op, every identifier
has at most one timing record, and at most one `question_focus` event of `q`
has ever been recorded. -/
theorem focusedAt_first_write_wins (pageLoadTime : Int) (assignmentId : Option Int)
    (storage : Stored) (sid : String) (p : PageInfo) (now : Int)
    (before after : List Signal) (q : String)
    (hforge : ∀ sig ∈ before ++ after, sig.capturesType "question_focus" = false) :
    (∀ r, getTiming (run (atLoad pageLoadTime assignmentId storage sid p now)
          before).questionTimings q = some r →
        ∃ r1, getTiming (run (atLoad pageLoadTime assignmentId storage sid p now)
            (before ++ after)).questionTimings q = some r1 ∧ r1.focusedAt = r.focusedAt) ∧
      (∀ r, getTiming (run (atLoad pageLoadTime assignmentId storage sid p now)
          before).questionTimings q = some r →
        ∀ i b t, onIntersect (run (atLoad pageLoadTime assignmentId storage sid p now) before)
            q i b t
          = run (atLoad pageLoadTime assignmentId storage sid p now) before) ∧
      (timingKeys (run (atLoad pageLoadTime assignmentId storage sid p now)
        (before ++ after))).Nodup ∧
      ((run (atLoad pageLoadTime assignmentId storage sid p now)
        (before ++ after)).recorded.filter (isFocusEventFor q)).length ≤ 1 := by
  refine ⟨?_, ?_, ?_, ?_⟩
  · intro r hr
    rw [run_append]
    exact run_keeps_focusedAt _ after q r hr
  · intro r hr i b t
    simp [onIntersect, hr]
  · apply run_keys_nodup
    simp [timingKeys, atLoad, init, setupEventListeners, trackPageLoad, logEvent, fresh]
  · apply (run_focusOnce _ _ q hforge _).1
    refine ⟨?_, ?_⟩
    · simp [atLoad, init, setupEventListeners, trackPageLoad, logEvent, fresh, isFocusEventFor]
    · intro _
      simp [atLoad, init, setupEventListeners, trackPageLoad, logEvent, fresh, isFocusEventFor]

/-- Witness of `focusedAt_first_write_wins`: question 12 becomes visible, is
answered, and crosses the visibility threshold again. -/
theorem focusedAt_first_write_wins_witness :
    ((run (atLoad 1000 (some 3) Stored.absent "sess_1000_abc" samplePage 1001)
      ([Signal.intersect "12" 0 true 2000] ++
        [Signal.answerChange "12" 0 "b" 4500, Signal.intersect "12" 0 true 5000])).recorded.filter
      (isFocusEventFor "12")).length ≤ 1 :=
  (focusedAt_first_write_wins 1000 (some 3) Stored.absent "sess_1000_abc" samplePage 1001
    [Signal.intersect "12" 0 true 2000]
    [Signal.answerChange "12" 0 "b" 4500, Signal.intersect "12" 0 true 5000] "12"
    (by decide)).2.2.2

/-! ## The typing-burst detector -/

/-- C8 (counterexample): a textarea is focused at 1000 and its first input
mutation, at 1200, adds 25 characters; the one `typing_burst` event recorded
has `charsPerSecond = null`, not 125. -/
theorem first_input_has_no_rate :
    (focusThenInput blank TextareaState.initial "essay" 0 1000 25 1200).1.interactions.filter
        isTypingBurst
      = [⟨"typing_burst", none, 1200,
          [("textareaName", Value.str "essay"), ("charsAdded", Value.num 25),
           ("timeSinceLastInputMs", Value.null), ("charsPerSecond", Value.null),
           ("likelyPaste", Value.bool true), ("timeOnPage", Value.num 1200),
           ("assignmentId", Value.null)]⟩] := by
  decide

/-- The rate of 25 characters in 200 ms is the number 125. -/
theorem rate_25_in_200 :
    Double.mul (Double.div (Double.ofInt 25) (Double.ofInt 200)) (Double.ofInt 1000)
      = ⟨false, 125, 0⟩ := by
  rfl

/-- The rate of 161 characters in 5 ms is the number printed as
`32200.000000000004`, which is `8851068603596801 * 2 ^ (-38)`. -/
theorem rate_161_in_5 :
    Double.mul (Double.div (Double.ofInt 161) (Double.ofInt 5)) (Double.ofInt 1000)
      = ⟨false, 8851068603596801, -38⟩ := by
  rfl

/-- The rate of 7 characters in 3 ms is the number printed as
`2333.3333333333335`, which is `5131054262954667 * 2 ^ (-41)`. -/
theorem rate_7_in_3 :
    Double.mul (Double.div (Double.ofInt 7) (Double.ofInt 3)) (Double.ofInt 1000)
      = ⟨false, 5131054262954667, -41⟩ := by
  rfl

/-- C8 (amended): the reference instant of the burst rate is the previous input
mutation of the textarea, which a focus does not reset. An input mutation that
adds `n > 5` characters `t ≠ 0` ms after the previous input mutation, whose
instant is not `0`, records exactly one `typing_burst` event, with
`charsPerSecond` the binary64 number `n / t * 1000` (quotient rounded, then
product rounded) and `likelyPaste` true exactly when `n > 20`; 25 characters
after 200 ms give 125 and `true`. When there has been no input mutation
before, the event has `charsPerSecond = null`; a mutation adding 5 or fewer
characters records no event. -/
theorem typing_burst_rate (s : Telemetry) (ta : TextareaState) (name : String)
    (newLength : Nat) (now : Int) :
    (∀ t0, ta.lastInputTime = some t0 → t0 ≠ 0 → now - t0 ≠ 0 →
      (newLength : Int) - ta.charCount > 5 →
      (onTextareaInput s ta name newLength now).1.interactions = s.interactions ++
        [⟨"typing_burst", s.sessionId, now,
          [("textareaName", Value.str name),
           ("charsAdded", Value.num ((newLength : Int) - ta.charCount)),
           ("timeSinceLastInputMs", Value.num (now - t0)),
           ("charsPerSecond",
             Value.double
               (Double.mul
                 (Double.div (Double.ofInt ((newLength : Int) - ta.charCount))
                   (Double.ofInt (now - t0)))
                 (Double.ofInt 1000))),
           ("likelyPaste", Value.bool (decide ((newLength : Int) - ta.charCount > 20))),
           ("timeOnPage", Value.num (now - s.pageLoadTime)),
           ("assignmentId", optNum s.assignmentId)]⟩]) ∧
    (∀ t0, ta.lastInputTime = some t0 → t0 ≠ 0 → now - t0 = 200 →
      (newLength : Int) - ta.charCount = 25 →
      ∃ e, (onTextareaInput s ta name newLength now).1.interactions = s.interactions ++ [e] ∧
        e.eventType = "typing_burst" ∧
        e.data.lookup "charsPerSecond" = some (Value.double ⟨false, 125, 0⟩) ∧
        e.data.lookup "likelyPaste" = some (Value.bool true)) ∧
    (ta.lastInputTime = none → (newLength : Int) - ta.charCount > 5 →
      (onTextareaInput s ta name newLength now).1.interactions = s.interactions ++
        [⟨"typing_burst", s.sessionId, now,
          [("textareaName", Value.str name),
           ("charsAdded", Value.num ((newLength : Int) - ta.charCount)),
           ("timeSinceLastInputMs", Value.null),
           ("charsPerSecond", Value.null),
           ("likelyPaste", Value.bool (decide ((newLength : Int) - ta.charCount > 20))),
           ("timeOnPage", Value.num (now - s.pageLoadTime)),
           ("assignmentId", optNum s.assignmentId)]⟩]) ∧
    ((newLength : Int) - ta.charCount ≤ 5 → (onTextareaInput s ta name newLength now).1 = s) ∧
    (∀ len t, (onTextareaFocus s ta name len t).2.lastInputTime = ta.lastInputTime) ∧
    (onTextareaInput s ta name newLength now).2.lastInputTime = some now := by
  have hmain : ∀ t0, ta.lastInputTime = some t0 → t0 ≠ 0 → now - t0 ≠ 0 →
      (newLength : Int) - ta.charCount > 5 →
      (onTextareaInput s ta name newLength now).1.interactions = s.interactions ++
        [⟨"typing_burst", s.sessionId, now,
          [("textareaName", Value.str name),
           ("charsAdded", Value.num ((newLength : Int) - ta.charCount)),
           ("timeSinceLastInputMs", Value.num (now - t0)),
           ("charsPerSecond",
             Value.double
               (Double.mul
                 (Double.div (Double.ofInt ((newLength : Int) - ta.charCount))
                   (Double.ofInt (now - t0)))
                 (Double.ofInt 1000))),
           ("likelyPaste", Value.bool (decide ((newLength : Int) - ta.charCount > 20))),
           ("timeOnPage", Value.num (now - s.pageLoadTime)),
           ("assignmentId", optNum s.assignmentId)]⟩] := by
    intro t0 hlast ht0 hdt hn
    simp only [onTextareaInput, hn, if_true, hlast, truthy, bne_iff_ne, ne_eq, ht0,
      not_false_eq_true, decide_True, Option.map_some', logEvent, charsPerSecond, optNum,
      assignmentField]
    rw [if_pos hdt]
  refine ⟨hmain, ?_, ?_, ?_, ?_, ?_⟩
  · intro t0 hlast ht0 hdt hn
    refine ⟨_, hmain t0 hlast ht0 (by omega) (by omega), rfl, ?_, ?_⟩
    · simp only [hn, hdt, List.lookup]
      simp [rate_25_in_200]
    · simp [List.lookup, hn]
  · intro hlast hn
    simp [onTextareaInput, hn, hlast, truthy, logEvent, charsPerSecond, optNum, assignmentField]
  · intro hn
    have hn2 : ¬ ((newLength : Int) - ta.charCount > 5) := by omega
    simp only [onTextareaInput, hn2, if_false]
  · intro len t
    rfl
  · rfl

/-- Witness of `typing_burst_rate`: focus at 900, a first keystroke at 1000,
then 25 characters added at 1200. -/
theorem typing_burst_rate_witness :
    ∃ e, (onTextareaInput (focusThenInput blank TextareaState.initial "essay" 0 900 1 1000).1
          (focusThenInput blank TextareaState.initial "essay" 0 900 1 1000).2 "essay" 26
          1200).1.interactions
        = (focusThenInput blank TextareaState.initial "essay" 0 900 1 1000).1.interactions ++ [e] ∧
      e.eventType = "typing_burst" ∧
      e.data.lookup "charsPerSecond" = some (Value.double ⟨false, 125, 0⟩) ∧
      e.data.lookup "likelyPaste" = some (Value.bool true) :=
  (typing_burst_rate (focusThenInput blank TextareaState.initial "essay" 0 900 1 1000).1
    (focusThenInput blank TextareaState.initial "essay" 0 900 1 1000).2 "essay" 26 1200).2.1
    1000 rfl (by decide) (by decide) (by decide)

/-! ## The first interaction -/

theorem step_firstOnce (s : Telemetry) (sig : Signal) (e : Event)
    (hforge : sig.capturesType "first_interaction" = false) (h : FirstOnce e s) :
    FirstOnce e (step s sig) := by
  obtain ⟨ht, hf⟩ := h
  unfold FirstOnce
  cases sig with
  | click c now =>
    by_cases h1 : s.onceClick = true <;>
      simp [step, onClick, clickListener, firstInteractionHandler, trackFirstInteraction,
        logEvent, h1, ht, hf, List.filter_append, isFirstInteraction]
  | keydown now =>
    by_cases h1 : s.onceKeydown = true <;>
      simp [step, onKeydown, firstInteractionHandler, trackFirstInteraction, logEvent, h1, ht,
        hf, List.filter_append, isFirstInteraction]
  | scroll now =>
    by_cases h1 : s.onceScroll = true <;> by_cases h3 : s.scrollTimeout = true <;>
      simp [step, onScroll, scrollListener, firstInteractionHandler, trackFirstInteraction,
        logEvent, h1, ht, hf, h3, List.filter_append, isFirstInteraction]
  | scrollTimer y x m now =>
    by_cases h1 : s.scrollTimeout = true <;>
      simp [step, scrollTimer, logEvent, h1, ht, hf, List.filter_append, isFirstInteraction]
  | intersect q i b now =>
    by_cases h1 : (b && (getTiming s.questionTimings q).isNone) = true
    · simp only [step, onIntersect, h1, if_true, logEvent]
      simp [ht, hf, List.filter_append, isFirstInteraction]
    · simp only [step, onIntersect, h1]
      exact ⟨ht, hf⟩
  | answerChange q i v now =>
    simp [step, onAnswerChange, logEvent, ht, hf, List.filter_append, isFirstInteraction]
  | capture ty data now =>
    have hty : (ty == "first_interaction") = false := hforge
    simp [step, logEvent, ht, hf, List.filter_append, isFirstInteraction, hty]
  | flush =>
    simp only [step, flush_recorded]
    refine ⟨?_, hf⟩
    unfold flush
    split
    · exact ht
    · exact ht
  | flushWithBeacon =>
    simp only [step, flushWithBeacon_recorded]
    refine ⟨?_, hf⟩
    unfold flushWithBeacon
    split
    · exact ht
    · exact ht
  | fetchFailed i =>
    simp only [step, fetchFailed_recorded]
    refine ⟨?_, hf⟩
    unfold fetchFailed
    split
    · exact ht
    · exact ht
  | fetchSucceeded i => exact ⟨ht, hf⟩

theorem run_firstOnce (s : Telemetry) (sigs : List Signal) (e : Event)
    (hforge : ∀ sig ∈ sigs, sig.capturesType "first_interaction" = false) (h : FirstOnce e s) :
    FirstOnce e (run s sigs) := by
  induction sigs generalizing s with
  | nil => exact h
  | cons sig rest ih =>
    exact ih (step s sig) (fun x hx => hforge x (List.mem_cons_of_mem _ hx))
      (step_firstOnce s sig e (hforge sig (List.mem_cons_self _ _)) h)

theorem first_signal_firstOnce (pageLoadTime : Int) (assignmentId : Option Int)
    (storage : Stored) (sid : String) (p : PageInfo) (now : Int) (sig : Signal) (ty : String)
    (hsig : sig.domType = some ty) :
    FirstOnce
      ⟨"first_interaction", some sid, sig.instant,
        [("interactionType", Value.str ty),
         ("timeSinceLoadMs", Value.num (sig.instant - pageLoadTime)),
         ("assignmentId", optNum assignmentId)]⟩
      (step (atLoad pageLoadTime assignmentId storage sid p now) sig) := by
  unfold FirstOnce
  cases sig with
  | click c t =>
    simp only [Signal.domType, Option.some.injEq] at hsig
    subst hsig
    simp [step, onClick, clickListener, firstInteractionHandler, trackFirstInteraction,
      logEvent, atLoad, init, setupEventListeners, trackPageLoad, fresh, List.filter_append,
      isFirstInteraction, Signal.instant, assignmentField, List.filter]
  | keydown t =>
    simp only [Signal.domType, Option.some.injEq] at hsig
    subst hsig
    simp [step, onKeydown, firstInteractionHandler, trackFirstInteraction,
      logEvent, atLoad, init, setupEventListeners, trackPageLoad, fresh, List.filter_append,
      isFirstInteraction, Signal.instant, assignmentField, List.filter]
  | scroll t =>
    simp only [Signal.domType, Option.some.injEq] at hsig
    subst hsig
    simp [step, onScroll, scrollListener, firstInteractionHandler, trackFirstInteraction,
      logEvent, atLoad, init, setupEventListeners, trackPageLoad, fresh, List.filter_append,
      isFirstInteraction, Signal.instant, assignmentField, List.filter]
  | scrollTimer y x m t => simp [Signal.domType] at hsig
  | intersect q i b t => simp [Signal.domType] at hsig
  | answerChange q i v t => simp [Signal.domType] at hsig
  | capture ty1 data t => simp [Signal.domType] at hsig
  | flush => simp [Signal.domType] at hsig
  | flushWithBeacon => simp [Signal.domType] at hsig
  | fetchFailed i => simp [Signal.domType] at hsig
  | fetchSucceeded i => simp [Signal.domType] at hsig

/-- C10: from page load on, when the first signal is a click, key-press or
scroll, it records a `first_interaction` event carrying its type and the time
since page load, and after any further signals (no bare `logEvent` call forging
a `first_interaction` event among them) that event is still the only
`first_interaction` event ever recorded. -/
theorem first_interaction_once (pageLoadTime : Int) (assignmentId : Option Int)
    (storage : Stored) (sid : String) (p : PageInfo) (now : Int) (sig : Signal)
    (rest : List Signal) (ty : String) (hsig : sig.domType = some ty)
    (hrest : ∀ x ∈ rest, x.capturesType "first_interaction" = false) :
    (step (atLoad pageLoadTime assignmentId storage sid p now) sig).recorded.filter
        isFirstInteraction
      = [⟨"first_interaction", some sid, sig.instant,
          [("interactionType", Value.str ty),
           ("timeSinceLoadMs", Value.num (sig.instant - pageLoadTime)),
           ("assignmentId", optNum assignmentId)]⟩] ∧
    (run (atLoad pageLoadTime assignmentId storage sid p now) (sig :: rest)).recorded.filter
        isFirstInteraction
      = [⟨"first_interaction", some sid, sig.instant,
          [("interactionType", Value.str ty),
           ("timeSinceLoadMs", Value.num (sig.instant - pageLoadTime)),
           ("assignmentId", optNum assignmentId)]⟩] := by
  have h1 := first_signal_firstOnce pageLoadTime assignmentId storage sid p now sig ty hsig
  refine ⟨h1.2, ?_⟩
  rw [run_cons]
  exact (run_firstOnce _ rest _ hrest h1).2

/-- Witness of `first_interaction_once`: a scroll, then a click, a key-press and another scroll. -/
theorem first_interaction_once_witness :
    (run (atLoad 1000 (some 3) Stored.absent "sess_1000_abc" samplePage 1001)
        (Signal.scroll 1500 ::
          [Signal.click sampleClick 1600, Signal.keydown 1700, Signal.scroll 1800])).recorded.filter
        isFirstInteraction
      = [⟨"first_interaction", some "sess_1000_abc", 1500,
          [("interactionType", Value.str "scroll"),
           ("timeSinceLoadMs", Value.num 500),
           ("assignmentId", Value.num 3)]⟩] :=
  (first_interaction_once 1000 (some 3) Stored.absent "sess_1000_abc" samplePage 1001
    (Signal.scroll 1500) [Signal.click sampleClick 1600, Signal.keydown 1700, Signal.scroll 1800]
    "scroll" rfl (by decide)).2

end CheatTelemetry
